import Mathlib

/-!
Shallow embedding of the wedding-newspaper-api repository (server.js in its
two deployment variants, and the client App.jsx), together with proofs of
the behavioural claims about it.

Strings are modelled as Lean `String` (lists of characters); the ASCII
strings involved make JS UTF-16 length coincide with character count.
JS numbers that matter here are naturals: `Math.random()` is modelled by
its numerator over 2 ^ 53 (the double values it can return are exactly
the dyadic rationals rand / 2 ^ 53 with rand < 2 ^ 53).
-/

/-- Model of JS `String.prototype.startsWith`: the candidate list of
characters of the pattern is a prefix of the characters of the string. -/
def jsStartsWith (s p : String) : Bool :=
  p.data.isPrefixOf s.data

/-- Model of JS `String.prototype.length` (all strings involved are ASCII,
so UTF-16 code units coincide with characters). -/
def jsLength (s : String) : Nat :=
  s.data.length

/-- Model of JS `String.prototype.toUpperCase` on one ASCII character. -/
def jsToUpperChar (c : Char) : Char :=
  if 'a' ≤ c ∧ c ≤ 'z' then Char.ofNat (c.toNat - 32) else c

/-- Model of JS `String.prototype.toUpperCase`. -/
def jsToUpper (s : String) : String :=
  String.mk (s.data.map jsToUpperChar)

/-- Model of JS `String.prototype.substring(a, b)` for `a ≤ b` (indices are
clamped to the string length, which `drop`/`take` do for free). -/
def jsSubstring (s : String) (a b : Nat) : String :=
  String.mk ((s.data.drop a).take (b - a))

/-- Model of JS `String.prototype.slice(-n)`: the last `min n length`
characters of the string. -/
def jsSliceLast (s : String) (n : Nat) : String :=
  String.mk (s.data.drop (s.data.length - n))

/-- Little-endian decimal digits of `n`, with explicit fuel (the fuel
`n + 1` used below always suffices since `n / 10 < n` for `10 ≤ n`). -/
def decRevDigits : Nat → Nat → List Nat
  | 0, _ => []
  | fuel + 1, n => if n < 10 then [n] else n % 10 :: decRevDigits fuel (n / 10)

/-- Model of JS `Number.prototype.toString()` (radix 10) on a natural. -/
def natToDecString (n : Nat) : String :=
  String.mk ((decRevDigits (n + 1) n).reverse.map (fun d => Char.ofNat (48 + d)))

/-- The denominator `2 ^ 53` used to represent the possible results of
`Math.random()` as dyadic rationals `rand / 2 ^ 53`. -/
def TWO53 : Nat := 2 ^ 53

/-- Base-36 digits of the fractional value `m / 2 ^ 53`, produced exactly as
`Number.prototype.toString(36)` produces them: repeatedly multiply by 36,
emit the integer part, and stop when the remaining fraction is zero.  For
`m < 2 ^ 53` the expansion is exact within 27 steps, so fuel 53 suffices. -/
def frac36Digits : Nat → Nat → List Nat
  | 0, _ => []
  | fuel + 1, m =>
    if m = 0 then []
    else (m * 36) / TWO53 :: frac36Digits fuel ((m * 36) % TWO53)

/-- The character for a base-36 digit, as JS prints it (lower case). -/
def base36Char (d : Nat) : Char :=
  if d < 10 then Char.ofNat (48 + d) else Char.ofNat (87 + d)

/-- Model of `Math.random().toString(36)` where the drawn double is
`rand / 2 ^ 53`: the value `0` prints as "0", any other value prints as
"0." followed by its exact base-36 fraction digits. -/
def jsRandomToString36 (rand : Nat) : String :=
  if rand = 0 then "0"
  else String.mk ('0' :: '.' :: (frac36Digits 53 rand).map base36Char)

/-- server.js `generateAccessCode` (identical in both variants):
`prefix-year-random-timestamp` where `prefix = "WN"`,
`year = new Date().getFullYear()`,
`random = Math.random().toString(36).substring(2, 8).toUpperCase()` and
`timestamp = Date.now().toString().slice(-4)`.  The ambient clock and
random draw are passed as arguments `year`, `rand` (numerator over
`2 ^ 53`) and `ts` (milliseconds). -/
def generateAccessCode (year rand ts : Nat) : String :=
  "WN" ++ "-" ++ natToDecString year ++ "-"
    ++ jsToUpper (jsSubstring (jsRandomToString36 rand) 2 8) ++ "-"
    ++ jsSliceLast (natToDecString ts) 4

/-- Outcome of the `POST /api/validate-code` handler. -/
inductive ValidateResult where
  /-- 400 response with error `Access code is required` (the `!code` guard). -/
  | missingError : ValidateResult
  /-- 400 response with `valid: false` and error `Invalid access code format`. -/
  | formatError : ValidateResult
  /-- 200 response with `valid: true` echoing the code. -/
  | valid (code : String) : ValidateResult
deriving DecidableEq

/-- HTTP status of a validate-code outcome (Render variant, server.js
lines 99-121: the invalid-format branch uses `res.status(400)`). -/
def validateStatus : ValidateResult → Nat
  | .missingError => 400
  | .formatError => 400
  | .valid _ => 200

/-- Whether the response reports the code as valid (`valid: true`). -/
def reportsValid : ValidateResult → Bool
  | .valid _ => true
  | _ => false

/-- server.js `POST /api/validate-code` handler: destructures `code` from
the request body (`none` models a body without that key), rejects a falsy
value (for strings, exactly the empty string), and otherwise tests
`code.startsWith('WN-') && code.length >= 10`. -/
def validateCode (body : Option String) : ValidateResult :=
  match body with
  | none => .missingError
  | some code =>
    if code = "" then .missingError
    else if jsStartsWith code "WN-" = true ∧ 10 ≤ jsLength code then .valid code
    else .formatError

example : validateCode (some "WN-2025-ABC123-4567") = .valid "WN-2025-ABC123-4567" := by decide
example : validateCode (some "WN-123") = .formatError := by decide
example : validateCode (some "XX-2025-ABC123-4567") = .formatError := by decide
example : validateCode none = .missingError := by decide
example : generateAccessCode 2025 (2 ^ 52) 1234567890123 = "WN-2025-I-0123" := by decide
example : generateAccessCode 5 0 3 = "WN-5--3" := by decide

/-- The body of the request the client access step sends: App.jsx
`handleAccessCodeSubmit` serialises `JSON.stringify({ accessCode })`, a
one-field object keyed `accessCode`.  A JSON object body is modelled as an
association list from keys to string values. -/
def handleAccessCodeSubmitBody (accessCode : String) : List (String × String) :=
  [("accessCode", accessCode)]

/-- JS destructuring `const { code } = req.body`: look a key up in the
parsed JSON body, `none` when the key is absent (JS `undefined`). -/
def jsGetField (body : List (String × String)) (key : String) : Option String :=
  (body.find? (fun p => p.1 = key)).map (fun p => p.2)

/-- A price-table entry of the `PRICES` configuration object. -/
structure Price where
  amount : Nat
  name : String
  description : String
deriving DecidableEq

/-- The own properties of the `PRICES` object literal in server.js. -/
def PRICES : String → Option Price
  | "basic" => some ⟨1999, "Basic Package", "AI Content Co-Pilot + 1 Template Style"⟩
  | "premium" => some ⟨2499, "Premium Package", "AI Content Co-Pilot + 3 Template Styles + Instructions"⟩
  | "complete" => some ⟨4999, "Complete Bundle", "Everything + Future Updates + Priority Support"⟩
  | _ => none

/-- Property names that every plain object literal inherits from
`Object.prototype`, so that `PRICES[k]` is defined (and truthy) for them
even though they are not own keys of `PRICES`. -/
def objectProtoProps : List String :=
  ["constructor", "hasOwnProperty", "isPrototypeOf", "propertyIsEnumerable",
   "toLocaleString", "toString", "valueOf",
   "__defineGetter__", "__defineSetter__", "__lookupGetter__",
   "__lookupSetter__", "__proto__"]

/-- Result of the JS property access `PRICES[priceId]`. -/
inductive PriceLookup where
  /-- `undefined`: neither an own key nor an inherited property (falsy). -/
  | jsUndefined : PriceLookup
  /-- An own entry of the price table (an object, hence truthy). -/
  | priceVal (p : Price) : PriceLookup
  /-- An inherited `Object.prototype` member (a function or object, hence
  truthy), remembered by its property name. -/
  | protoVal (name : String) : PriceLookup
deriving DecidableEq

/-- JS property access `PRICES[k]`: own properties shadow the prototype;
missing own keys fall through to `Object.prototype`. -/
def pricesLookup (k : String) : PriceLookup :=
  match PRICES k with
  | some p => .priceVal p
  | none => if k ∈ objectProtoProps then .protoVal k else .jsUndefined

/-- The arguments the handler passes to
`stripe.checkout.sessions.create` that the claims talk about: currency,
`unit_amount`, quantity and the product fields.  `Option` models fields
that are JS `undefined` when the looked-up value has no such property. -/
structure SessionParams where
  currency : String
  unit_amount : Option Nat
  quantity : Nat
  productName : Option String
  productDescription : Option String
deriving DecidableEq

/-- The `.name` of an inherited `Object.prototype` member: the inherited
methods are named functions, `constructor` is the `Object` function
(whose `.name` is "Object"), and `__proto__` yields `Object.prototype`
itself, an object with no `.name`. -/
def protoMemberName (n : String) : Option String :=
  if n = "__proto__" then none
  else if n = "constructor" then some "Object" else some n

/-- The session parameters built from `price = PRICES[priceId]`:
`currency: 'usd'`, `unit_amount: price.amount`, `quantity: 1`,
`name: price.name`, `description: price.description`.  On a prototype
member, `.amount` and `.description` are `undefined`. -/
def paramsOf : PriceLookup → SessionParams
  | .priceVal p => ⟨"usd", some p.amount, 1, some p.name, some p.description⟩
  | .protoVal n => ⟨"usd", none, 1, protoMemberName n, none⟩
  | .jsUndefined => ⟨"usd", none, 1, none, none⟩

/-- The parameters the handler would send to the processor for a given
`priceId` (used to state the success-path theorem). -/
def sessionParamsFor (pid : String) : SessionParams :=
  paramsOf (pricesLookup pid)

/-- server.js `POST /api/create-checkout-session` handler.  The payment
processor is an oracle from session parameters to either a session URL or
an error.  The result pairs the HTTP response (status, optional redirect
URL) with the list of processor invocations made during the request:
`if (!PRICES[priceId])` responds 400 with no invocation; otherwise the
processor is called once, and its answer maps to `res.json({ url })` or,
through the catch block, to a 500. -/
def createCheckoutSession (priceId : String)
    (processor : SessionParams → Except String String) :
    (Nat × Option String) × List SessionParams :=
  match pricesLookup priceId with
  | .jsUndefined => ((400, none), [])
  | v =>
    let params := paramsOf v
    match processor params with
    | .ok url => ((200, some url), [params])
    | .error _ => ((500, none), [params])

example : (createCheckoutSession "gold" (fun _ => .ok "u")).1.1 = 400 := by decide
example : (createCheckoutSession "basic" (fun _ => .ok "u")).1 = (200, some "u") := by decide
example : (createCheckoutSession "constructor" (fun _ => .error "e")).1.1 = 500 := by decide

/-- A payment-processor event as the webhook handler consumes it after
`stripe.webhooks.constructEvent`: its type plus the session fields the
completed branch reads. -/
structure StripeEvent where
  type : String
  sessionId : String
  customerEmail : Option String
  packageType : Option String
deriving DecidableEq

/-- The body the webhook handler responds with. -/
inductive WebhookResponse where
  /-- `res.status(400).send(...)` with the error text. -/
  | errorText (msg : String) : WebhookResponse
  /-- `res.json({received: true})`. -/
  | receivedTrue : WebhookResponse
deriving DecidableEq

/-- Observable outcome of one webhook request: HTTP status, response
body, the event type that reached the switch statement (none when
verification failed before dispatch), and the access codes generated. -/
structure WebhookOutcome where
  status : Nat
  response : WebhookResponse
  dispatched : Option String
  generatedCodes : List String
deriving DecidableEq

/-- server.js `POST /api/webhook` handler.  `verification` is the result
of `stripe.webhooks.constructEvent(req.body, sig, secret)`: an exception
message on signature failure, the parsed event otherwise.  On failure the
handler returns 400 immediately; on success the switch generates exactly
one access code for `checkout.session.completed` and ignores every other
event type, answering `{received: true}` either way. -/
def webhookHandler (verification : Except String StripeEvent)
    (year rand ts : Nat) : WebhookOutcome :=
  match verification with
  | .error msg => ⟨400, .errorText ("Webhook Error: " ++ msg), none, []⟩
  | .ok event =>
    if event.type = "checkout.session.completed" then
      ⟨200, .receivedTrue, some event.type, [generateAccessCode year rand ts]⟩
    else
      ⟨200, .receivedTrue, some event.type, []⟩

/-- The body-parsing middleware relevant to the webhook ordering claim:
`express.raw({type: 'application/json'})` mounted on the webhook route,
and the application-wide `express.json()`. -/
inductive Middleware where
  | rawWebhook : Middleware
  | jsonAll : Middleware
deriving DecidableEq

/-- The slice of an incoming request the middleware dispatch looks at. -/
structure WebRequest where
  path : String
  contentTypeJson : Bool
deriving DecidableEq

/-- What the request body looks like once a parser has consumed it. -/
inductive BodyKind where
  /-- The raw bytes, as `express.raw` leaves them. -/
  | raw : BodyKind
  /-- The parsed JSON object `express.json` replaces the body with. -/
  | jsonParsed : BodyKind
deriving DecidableEq

/-- Whether a middleware parses the body of a request: both parsers only
act on `application/json` bodies, and the route-mounted raw parser only
on the webhook path. -/
def middlewareParses : Middleware → WebRequest → Bool
  | .rawWebhook, req => req.path = "/api/webhook" && req.contentTypeJson
  | .jsonAll, req => req.contentTypeJson

/-- The body representation a middleware produces. -/
def parsedKind : Middleware → BodyKind
  | .rawWebhook => .raw
  | .jsonAll => .jsonParsed

/-- Express semantics of body parsing: middleware run in registration
order, and the first body parser that matches consumes the stream; later
parsers see the body already read and leave it as is.  The result is the
body representation the route handler (and hence the signature verifier)
receives; `none` when no parser matched. -/
def bodyAtHandler : List Middleware → WebRequest → Option BodyKind
  | [], _ => none
  | m :: rest, req =>
    if middlewareParses m req then some (parsedKind m) else bodyAtHandler rest req

/-- Registration order in the Render variant of server.js: the webhook
route with its raw parser (line 25) comes before `app.use(express.json())`
(line 67). -/
def renderPipeline : List Middleware := [.rawWebhook, .jsonAll]

/-- Registration order in the Railway variant of server.js:
`app.use(express.json())` (line 202) comes before the webhook route with
its raw parser (line 303). -/
def railwayPipeline : List Middleware := [.jsonAll, .rawWebhook]

example : bodyAtHandler renderPipeline ⟨"/api/webhook", true⟩ = some .raw := by decide
example : bodyAtHandler railwayPipeline ⟨"/api/webhook", true⟩ = some .jsonParsed := by decide

/-- Characters JS `String.prototype.trim` strips (the ASCII whitespace
actually reachable from the form inputs). -/
def jsWhitespaceChar (c : Char) : Bool :=
  c = ' ' || c = '\t' || c = '\n' || c = '\r' || c = Char.ofNat 11 || c = Char.ofNat 12

/-- Model of JS `String.prototype.trim`. -/
def jsTrim (s : String) : String :=
  String.mk (((s.data.dropWhile jsWhitespaceChar).reverse.dropWhile jsWhitespaceChar).reverse)

/-- The ten fields of the client wizard form state. -/
structure FormData where
  bride : String
  groom : String
  weddingDate : String
  venue : String
  howMet : String
  proposal : String
  favoriteMemory : String
  sharedHobbies : String
  petNames : String
  futurePlans : String
deriving DecidableEq

/-- The required-field list of App.jsx `handleFormSubmit`, paired with the
accessor each name denotes on the form state. -/
def requiredFields : List (String × (FormData → String)) :=
  [("bride", FormData.bride), ("groom", FormData.groom),
   ("weddingDate", FormData.weddingDate), ("venue", FormData.venue),
   ("howMet", FormData.howMet)]

/-- `requiredFields.filter(field => !formData[field].trim())`: the names
of required fields whose trimmed value is empty (JS falsy). -/
def missingFields (fd : FormData) : List String :=
  (requiredFields.filter (fun p => jsTrim (p.2 fd) = "")).map (fun p => p.1)

/-- The wizard stages of App.jsx (`currentStep`). -/
inductive Stage where
  | access : Stage
  | form : Stage
  | generating : Stage
  | complete : Stage
deriving DecidableEq

/-- Outcome of the `fetch` to the generation endpoint: a 200 response
(`response.ok`), a non-200 response (the handler throws and lands in the
catch block), or a network failure (the fetch itself rejects). -/
inductive FetchOutcome where
  | ok : FetchOutcome
  | httpError : FetchOutcome
  | networkError : FetchOutcome
deriving DecidableEq

/-- Observable outcome of one form submission: the successive
`setCurrentStep` assignments it performs, and the alert it surfaces. -/
structure SubmitResult where
  stages : List Stage
  alert : Option String
deriving DecidableEq

/-- App.jsx `handleFormSubmit`: when some required field trims to empty,
alert and return without touching the stage; otherwise set the stage to
`generating`, call the generation endpoint, and on a 200 set the stage to
`complete`, while a non-200 (thrown) or a network failure lands in the
catch block, which alerts and sets the stage back to `form`. -/
def handleFormSubmit (fd : FormData) (r : FetchOutcome) : SubmitResult :=
  if 0 < (missingFields fd).length then
    ⟨[], some ("Please fill in all required fields: "
      ++ String.intercalate ", " (missingFields fd))⟩
  else
    match r with
    | .ok => ⟨[.generating, .complete], none⟩
    | .httpError => ⟨[.generating, .form], some "Error generating newspaper. Please try again."⟩
    | .networkError => ⟨[.generating, .form], some "Error generating newspaper. Please try again."⟩

example :
    handleFormSubmit ⟨"a", "b", "c", "d", "e", "", "", "", "", ""⟩ .ok
      = ⟨[.generating, .complete], none⟩ := by decide
example :
    (handleFormSubmit ⟨"a", "", "c", "d", "e", "", "", "", "", ""⟩ .ok).stages = [] := by decide

/-- Decidable check for a decimal digit character. -/
def isDigitCh (c : Char) : Bool :=
  '0' ≤ c && c ≤ '9'

/-- Decidable check for an alphanumeric character (digits and both
letter cases). -/
def isAlnumCh (c : Char) : Bool :=
  isDigitCh c || ('A' ≤ c && c ≤ 'Z') || ('a' ≤ c && c ≤ 'z')

/-- The exact code shape the specification asserts:
`WN-` then a 4-digit year, `-`, exactly 6 alphanumeric characters, `-`,
and a 4-digit suffix (total length 19). -/
def specCodePattern (s : String) : Bool :=
  let l := s.data
  decide (l.length = 19) && decide (l.take 3 = ['W', 'N', '-'])
    && ((l.drop 3).take 4).all isDigitCh
    && decide ((l.drop 7).take 1 = ['-'])
    && ((l.drop 8).take 6).all isAlnumCh
    && decide ((l.drop 14).take 1 = ['-'])
    && ((l.drop 15).take 4).all isDigitCh

example : specCodePattern "WN-2025-K7Q2ZD-4821" = true := by decide
example : specCodePattern "WN-2025-I-0123" = false := by decide

/-- A list is a (boolean) prefix of itself followed by anything. -/
theorem isPrefixOf_append_self (l r : List Char) : l.isPrefixOf (l ++ r) = true := by
  induction l with
  | nil => simp [List.isPrefixOf]
  | cons a t ih => simp [List.isPrefixOf, ih]

/-- C1: the validate-code handler reports a submitted string valid exactly
when it starts with "WN-" and has length at least 10; every other string
is reported not valid.  The iff over all strings also shows no further
check is performed. -/
theorem validate_code_valid_iff (code : String) :
    reportsValid (validateCode (some code)) = true ↔
      (jsStartsWith code "WN-" = true ∧ 10 ≤ jsLength code) := by
  by_cases h : code = ""
  · subst h
    decide
  · by_cases h2 : jsStartsWith code "WN-" = true ∧ 10 ≤ jsLength code
    · simp [validateCode, h, h2, reportsValid]
    · simp [validateCode, h, h2, reportsValid]

/-- C4: whatever access code the user types, the request body built by the
client access step carries it under the key `accessCode`, while the server
destructures `code`; the handler therefore always takes the missing-input
branch and answers 400. -/
theorem client_access_submit_always_missing (s : String) :
    validateCode (jsGetField (handleAccessCodeSubmitBody s) "code") = .missingError ∧
    validateStatus (validateCode (jsGetField (handleAccessCodeSubmitBody s) "code")) = 400 :=
  ⟨rfl, rfl⟩

/-- C6: when signature verification throws, the webhook handler answers
400 with the error text, the event switch is never reached (nothing is
dispatched), and no access code is generated. -/
theorem webhook_invalid_signature_rejected (msg : String) (year rand ts : Nat) :
    webhookHandler (Except.error msg) year rand ts =
      ⟨400, .errorText ("Webhook Error: " ++ msg), none, []⟩ := rfl

/-- C9: a signature-verified event of any type other than
`checkout.session.completed` is answered 200 with `received: true`, is
dispatched to the default switch branch, and generates no access code. -/
theorem webhook_other_events_ignored (e : StripeEvent) (year rand ts : Nat)
    (h : e.type ≠ "checkout.session.completed") :
    webhookHandler (Except.ok e) year rand ts = ⟨200, .receivedTrue, some e.type, []⟩ := by
  simp [webhookHandler, h]

/-- Witness for C9 at a concrete non-completed event. -/
theorem webhook_other_events_ignored_witness :
    (StripeEvent.mk "payment_intent.created" "pi_1" none none).type
        ≠ "checkout.session.completed" ∧
    webhookHandler (Except.ok ⟨"payment_intent.created", "pi_1", none, none⟩) 2025 1 7
      = ⟨200, .receivedTrue, some "payment_intent.created", []⟩ :=
  ⟨by decide,
   webhook_other_events_ignored ⟨"payment_intent.created", "pi_1", none, none⟩ 2025 1 7
     (by decide)⟩

/-- C7: with the five required fields non-blank, submitting the form sets
the stage to `generating` and then to `complete` exactly on a 200
response; a non-200 response or a network failure sets it back to `form`
with an alert, and `complete` is never reached without a 200 response. -/
theorem wizard_submit_transitions (fd : FormData) (r : FetchOutcome)
    (h : jsTrim fd.bride ≠ "" ∧ jsTrim fd.groom ≠ "" ∧ jsTrim fd.weddingDate ≠ ""
      ∧ jsTrim fd.venue ≠ "" ∧ jsTrim fd.howMet ≠ "") :
    (r = .ok → handleFormSubmit fd r = ⟨[.generating, .complete], none⟩) ∧
    (r ≠ .ok → handleFormSubmit fd r
      = ⟨[.generating, .form], some "Error generating newspaper. Please try again."⟩) ∧
    (Stage.complete ∈ (handleFormSubmit fd r).stages → r = .ok) := by
  obtain ⟨h1, h2, h3, h4, h5⟩ := h
  have hmf : missingFields fd = [] := by
    simp [missingFields, requiredFields, List.filter, h1, h2, h3, h4, h5]
  unfold handleFormSubmit
  rw [hmf]
  cases r <;> simp

/-- Witness for C7 at a concretely filled form and a 200 response. -/
theorem wizard_submit_transitions_witness :
    (jsTrim "Amy" ≠ "" ∧ jsTrim "Bob" ≠ "" ∧ jsTrim "2025-06-01" ≠ ""
      ∧ jsTrim "City Hall" ≠ "" ∧ jsTrim "online" ≠ "") ∧
    handleFormSubmit ⟨"Amy", "Bob", "2025-06-01", "City Hall", "online", "", "", "", "", ""⟩
        FetchOutcome.ok = ⟨[.generating, .complete], none⟩ :=
  ⟨by decide,
   (wizard_submit_transitions
      ⟨"Amy", "Bob", "2025-06-01", "City Hall", "online", "", "", "", "", ""⟩
      FetchOutcome.ok (by decide)).1 rfl⟩

/-- The success path of the checkout handler, evaluated once the price
lookup hits an own entry of the table. -/
theorem createCheckout_ok_eval (pid : String) (p : Price)
    (hpid : pricesLookup pid = PriceLookup.priceVal p)
    (processor : SessionParams → Except String String) (url : String)
    (hp : processor (paramsOf (PriceLookup.priceVal p)) = Except.ok url) :
    createCheckoutSession pid processor
      = ((200, some url), [paramsOf (PriceLookup.priceVal p)]) := by
  unfold createCheckoutSession
  rw [hpid]
  show (match processor (paramsOf (PriceLookup.priceVal p)) with
    | Except.ok u => ((200, some u), [paramsOf (PriceLookup.priceVal p)])
    | Except.error _ => ((500, none), [paramsOf (PriceLookup.priceVal p)]))
    = ((200, some url), [paramsOf (PriceLookup.priceVal p)])
  rw [hp]

/-- C5: for each of the three known price ids the handler calls the
processor exactly once, with currency usd, quantity 1 and the configured
unit amount (1999, 2499, 4999 cents), and when the processor succeeds the
response is 200 with the returned session URL. -/
theorem create_checkout_known_price (pid : String)
    (h : pid = "basic" ∨ pid = "premium" ∨ pid = "complete")
    (processor : SessionParams → Except String String) (url : String)
    (hp : processor (sessionParamsFor pid) = .ok url) :
    createCheckoutSession pid processor = ((200, some url), [sessionParamsFor pid]) ∧
    (sessionParamsFor pid).currency = "usd" ∧
    (sessionParamsFor pid).quantity = 1 ∧
    (sessionParamsFor pid).unit_amount =
      some (if pid = "basic" then 1999 else if pid = "premium" then 2499 else 4999) := by
  rcases h with h | h | h <;> subst h
  · exact ⟨createCheckout_ok_eval "basic"
      ⟨1999, "Basic Package", "AI Content Co-Pilot + 1 Template Style"⟩
      rfl processor url hp, rfl, rfl, rfl⟩
  · exact ⟨createCheckout_ok_eval "premium"
      ⟨2499, "Premium Package", "AI Content Co-Pilot + 3 Template Styles + Instructions"⟩
      rfl processor url hp, rfl, rfl, rfl⟩
  · exact ⟨createCheckout_ok_eval "complete"
      ⟨4999, "Complete Bundle", "Everything + Future Updates + Priority Support"⟩
      rfl processor url hp, rfl, rfl, rfl⟩

/-- Witness for C5 at `priceId = basic` and a constantly succeeding
processor. -/
theorem create_checkout_known_price_witness :
    ("basic" = "basic" ∨ "basic" = "premium" ∨ "basic" = "complete") ∧
    (fun _ : SessionParams => Except.ok (ε := String) "https://pay.example")
        (sessionParamsFor "basic") = .ok "https://pay.example" ∧
    createCheckoutSession "basic" (fun _ => Except.ok "https://pay.example")
      = ((200, some "https://pay.example"), [sessionParamsFor "basic"]) :=
  ⟨Or.inl rfl, rfl,
   (create_checkout_known_price "basic" (Or.inl rfl)
      (fun _ => Except.ok "https://pay.example") "https://pay.example" rfl).1⟩

/-- C2 is violated by the code: `constructor` is not one of the three
price ids, yet `PRICES['constructor']` finds the inherited (truthy)
`Object.prototype.constructor`, so the guard `!PRICES[priceId]` does not
fire: the processor is invoked (with an undefined unit amount) on every
such request, and when the processor rejects the response is 500, not the
claimed 400-without-invocation. -/
theorem create_checkout_proto_key_reaches_processor :
    ¬("constructor" = "basic" ∨ "constructor" = "premium" ∨ "constructor" = "complete") ∧
    (∀ processor : SessionParams → Except String String,
      (createCheckoutSession "constructor" processor).2
        = [⟨"usd", none, 1, some "Object", none⟩]) ∧
    (createCheckoutSession "constructor" (fun _ => .error "processor rejected")).1.1 = 500 := by
  refine ⟨by decide, fun processor => ?_, by decide⟩
  show (match processor (⟨"usd", none, 1, some "Object", none⟩ : SessionParams) with
    | Except.ok u => ((200, some u), [(⟨"usd", none, 1, some "Object", none⟩ : SessionParams)])
    | Except.error _ => ((500, none), [(⟨"usd", none, 1, some "Object", none⟩ : SessionParams)])).2
    = [(⟨"usd", none, 1, some "Object", none⟩ : SessionParams)]
  cases h : processor (⟨"usd", none, 1, some "Object", none⟩ : SessionParams) <;> rfl

/-- C8: in the Render variant the webhook raw parser is registered before
`express.json()`, so every JSON request to the webhook path hands the raw
body to the verifier; the Railway variant registers `express.json()`
first, so there the verifier receives the already-parsed body instead of
the raw bytes. -/
theorem webhook_raw_body_ordering :
    (∀ ct : Bool, bodyAtHandler renderPipeline ⟨"/api/webhook", ct⟩
      = if ct then some BodyKind.raw else none) ∧
    bodyAtHandler railwayPipeline ⟨"/api/webhook", true⟩ = some BodyKind.jsonParsed := by
  constructor
  · intro ct
    cases ct <;> decide
  · decide

/-- The characters of a generated access code, decomposed into the five
concatenated pieces of the template literal. -/
theorem generateAccessCode_data (year rand ts : Nat) :
    (generateAccessCode year rand ts).data
      = ['W', 'N', '-'] ++ (natToDecString year).data ++ ['-']
        ++ (jsToUpper (jsSubstring (jsRandomToString36 rand) 2 8)).data ++ ['-']
        ++ (jsSliceLast (natToDecString ts) 4).data := by
  simp [generateAccessCode, String.data_append, List.append_assoc]

/-- A number at least `10 ^ k` has more than `k` decimal digits (the fuel
only needs to exceed `k`). -/
theorem decRevDigits_length_ge :
    ∀ k fuel n : Nat, 10 ^ k ≤ n → k < fuel → k + 1 ≤ (decRevDigits fuel n).length := by
  intro k
  induction k with
  | zero =>
    intro fuel n _ hf
    cases fuel with
    | zero => omega
    | succ f =>
      unfold decRevDigits
      split <;> simp
  | succ k ih =>
    intro fuel n h1 hf
    cases fuel with
    | zero => omega
    | succ f =>
      have h10 : 10 ≤ n := by
        calc (10 : Nat) = 10 ^ 1 := (pow_one 10).symm
        _ ≤ 10 ^ (k + 1) := Nat.pow_le_pow_right (by norm_num) (by omega)
        _ ≤ n := h1
      unfold decRevDigits
      rw [if_neg (by omega)]
      simp only [List.length_cons]
      have hdiv : 10 ^ k ≤ n / 10 := by
        rw [Nat.le_div_iff_mul_le (by norm_num)]
        calc 10 ^ k * 10 = 10 ^ (k + 1) := by ring
        _ ≤ n := h1
      have := ih f (n / 10) hdiv (by omega)
      omega

/-- A number below `10 ^ (k + 1)` has at most `k + 1` decimal digits. -/
theorem decRevDigits_length_le :
    ∀ fuel n k : Nat, n < 10 ^ (k + 1) → (decRevDigits fuel n).length ≤ k + 1 := by
  intro fuel
  induction fuel with
  | zero => intro n k _; simp [decRevDigits]
  | succ f ih =>
    intro n k h
    unfold decRevDigits
    split
    · simp
    · rename_i hn
      simp only [List.length_cons]
      cases k with
      | zero => exact absurd (by simpa using h) hn
      | succ k0 =>
        have hd : n / 10 < 10 ^ (k0 + 1) := by
          rw [Nat.div_lt_iff_lt_mul (by norm_num)]
          calc n < 10 ^ (k0 + 2) := h
          _ = 10 ^ (k0 + 1) * 10 := by ring
        have := ih (n / 10) k0 hd
        omega

/-- With the fuel `n + 1` actually used, the digit list is never empty. -/
theorem decRevDigits_length_pos (n : Nat) : 1 ≤ (decRevDigits (n + 1) n).length := by
  unfold decRevDigits
  split <;> simp

/-- Every produced decimal digit is below 10. -/
theorem decRevDigits_lt_ten :
    ∀ fuel n : Nat, ∀ d ∈ decRevDigits fuel n, d < 10 := by
  intro fuel
  induction fuel with
  | zero => intro n d hd; simp [decRevDigits] at hd
  | succ f ih =>
    intro n d hd
    unfold decRevDigits at hd
    split at hd
    · rename_i hn
      simp at hd
      omega
    · rcases List.mem_cons.mp hd with h | h
      · subst h
        exact Nat.mod_lt _ (by norm_num)
      · exact ih (n / 10) d h

/-- The character of a decimal digit is one of the characters 0-9. -/
theorem isDigitCh_ofNat : ∀ d, d < 10 → isDigitCh (Char.ofNat (48 + d)) = true := by decide

/-- All characters of the decimal rendering of a natural are digits. -/
theorem natToDecString_digits (n : Nat) :
    ∀ c ∈ (natToDecString n).data, isDigitCh c = true := by
  intro c hc
  simp only [natToDecString] at hc
  obtain ⟨d, hd, rfl⟩ := by simpa using hc
  exact isDigitCh_ofNat d (decRevDigits_lt_ten _ _ d hd)

/-- The decimal rendering of a natural has as many characters as digits. -/
theorem natToDecString_length (n : Nat) :
    (natToDecString n).data.length = (decRevDigits (n + 1) n).length := by
  simp [natToDecString]

/-- Every base-36 digit of a fraction with numerator below `2 ^ 53` is
below 36. -/
theorem frac36Digits_lt :
    ∀ fuel m : Nat, m < TWO53 → ∀ d ∈ frac36Digits fuel m, d < 36 := by
  intro fuel
  induction fuel with
  | zero => intro m _ d hd; simp [frac36Digits] at hd
  | succ f ih =>
    intro m hm d hd
    unfold frac36Digits at hd
    split at hd
    · simp at hd
    · rcases List.mem_cons.mp hd with h | h
      · subst h
        have hT : 0 < TWO53 := by norm_num [TWO53]
        rw [Nat.div_lt_iff_lt_mul hT]
        calc m * 36 < TWO53 * 36 :=
              (Nat.mul_lt_mul_right (by norm_num : (0 : Nat) < 36)).mpr hm
        _ = 36 * TWO53 := by ring
      · exact ih ((m * 36) % TWO53) (Nat.mod_lt _ (by norm_num [TWO53])) d h

/-- An upper-cased base-36 digit character is alphanumeric. -/
theorem isAlnumCh_base36Upper :
    ∀ d, d < 36 → isAlnumCh (jsToUpperChar (base36Char d)) = true := by decide

/-- The random block of a generated code has at most 6 characters. -/
theorem randomPart_length_le (rand : Nat) :
    (jsToUpper (jsSubstring (jsRandomToString36 rand) 2 8)).data.length ≤ 6 := by
  simp only [jsToUpper, jsSubstring, List.length_map]
  calc ((((jsRandomToString36 rand).data.drop 2).take (8 - 2)).length)
      ≤ 8 - 2 := List.length_take_le _ _
  _ ≤ 6 := by norm_num

/-- Every character of the random block of a generated code is
alphanumeric, for any drawable random numerator. -/
theorem randomPart_chars (rand : Nat) (hr : rand < TWO53) :
    ∀ c ∈ (jsToUpper (jsSubstring (jsRandomToString36 rand) 2 8)).data,
      isAlnumCh c = true := by
  intro c hc
  by_cases h0 : rand = 0
  · subst h0
    have hnil : (jsToUpper (jsSubstring (jsRandomToString36 0) 2 8)).data = [] := rfl
    rw [hnil] at hc
    exact absurd hc (List.not_mem_nil c)
  · have hdata : (jsToUpper (jsSubstring (jsRandomToString36 rand) 2 8)).data
        = (((frac36Digits 53 rand).map base36Char).take 6).map jsToUpperChar := by
      show ((((jsRandomToString36 rand).data.drop 2).take (8 - 2)).map jsToUpperChar) = _
      rw [jsRandomToString36, if_neg h0]
      rfl
    rw [hdata] at hc
    obtain ⟨c0, hc0, rfl⟩ := List.mem_map.mp hc
    have hc1 : c0 ∈ (frac36Digits 53 rand).map base36Char := List.mem_of_mem_take hc0
    obtain ⟨d, hd, rfl⟩ := List.mem_map.mp hc1
    exact isAlnumCh_base36Upper d (frac36Digits_lt 53 rand hr d hd)

/-- C3 as stated is violated by the code: the random draw 0.5 (numerator
`2 ^ 52` over `2 ^ 53`) has the one-digit base-36 expansion "0.i", so the
verified `checkout.session.completed` event generates the code
WN-2025-I-0123, whose middle block has 1 character rather than the
claimed 6. -/
theorem webhook_completed_code_spec_pattern_fails :
    (webhookHandler
        (Except.ok ⟨"checkout.session.completed", "cs_1", some "a@b.c", some "Basic Package"⟩)
        2025 (2 ^ 52) 1234567890123).generatedCodes = ["WN-2025-I-0123"] ∧
    specCodePattern "WN-2025-I-0123" = false := by decide

/-- C3, amended: a verified `checkout.session.completed` event generates
exactly one access code per call, of the form WN-, 4-digit year, dash, at
most 6 alphanumeric characters, dash, 4 digits — for real clock values
(4-digit year, timestamp at least 1000 ms) and any drawable random
numerator. -/
theorem webhook_completed_code_shape (e : StripeEvent)
    (he : e.type = "checkout.session.completed") (year rand ts : Nat)
    (hy1 : 1000 ≤ year) (hy2 : year < 10000) (ht : 1000 ≤ ts) (hr : rand < TWO53) :
    (webhookHandler (Except.ok e) year rand ts).generatedCodes
      = [generateAccessCode year rand ts] ∧
    ∃ ys rs tss : List Char,
      (generateAccessCode year rand ts).data
        = ['W', 'N', '-'] ++ ys ++ ['-'] ++ rs ++ ['-'] ++ tss ∧
      ys.length = 4 ∧ (∀ c ∈ ys, isDigitCh c = true) ∧
      rs.length ≤ 6 ∧ (∀ c ∈ rs, isAlnumCh c = true) ∧
      tss.length = 4 ∧ (∀ c ∈ tss, isDigitCh c = true) := by
  constructor
  · simp [webhookHandler, he]
  · refine ⟨(natToDecString year).data,
      (jsToUpper (jsSubstring (jsRandomToString36 rand) 2 8)).data,
      (jsSliceLast (natToDecString ts) 4).data,
      generateAccessCode_data year rand ts, ?_, natToDecString_digits year, ?_, ?_, ?_, ?_⟩
    · have hge := decRevDigits_length_ge 3 (year + 1) year
        (by rw [show (10 : Nat) ^ 3 = 1000 from by norm_num]; exact hy1) (by omega)
      have hle := decRevDigits_length_le (year + 1) year 3
        (by rw [show (10 : Nat) ^ (3 + 1) = 10000 from by norm_num]; exact hy2)
      rw [natToDecString_length]
      omega
    · exact randomPart_length_le rand
    · exact randomPart_chars rand hr
    · have hge := decRevDigits_length_ge 3 (ts + 1) ts
        (by rw [show (10 : Nat) ^ 3 = 1000 from by norm_num]; exact ht) (by omega)
      have h4 : 4 ≤ (natToDecString ts).data.length := by
        rw [natToDecString_length]; omega
      simp only [jsSliceLast, List.length_drop]
      omega
    · intro c hc
      have : c ∈ (natToDecString ts).data := by
        simp only [jsSliceLast] at hc
        exact List.mem_of_mem_drop hc
      exact natToDecString_digits ts c this

/-- Witness for the amended C3 at a concrete verified completed event,
year 2025, random draw 0.5 and a realistic timestamp. -/
theorem webhook_completed_code_shape_witness :
    ((StripeEvent.mk "checkout.session.completed" "cs_1" (some "a@b.c")
        (some "Basic Package")).type = "checkout.session.completed"
      ∧ 1000 ≤ 2025 ∧ 2025 < 10000 ∧ 1000 ≤ 1234567890123 ∧ 2 ^ 52 < TWO53) ∧
    ((webhookHandler
        (Except.ok ⟨"checkout.session.completed", "cs_1", some "a@b.c", some "Basic Package"⟩)
        2025 (2 ^ 52) 1234567890123).generatedCodes
      = [generateAccessCode 2025 (2 ^ 52) 1234567890123] ∧
    ∃ ys rs tss : List Char,
      (generateAccessCode 2025 (2 ^ 52) 1234567890123).data
        = ['W', 'N', '-'] ++ ys ++ ['-'] ++ rs ++ ['-'] ++ tss ∧
      ys.length = 4 ∧ (∀ c ∈ ys, isDigitCh c = true) ∧
      rs.length ≤ 6 ∧ (∀ c ∈ rs, isAlnumCh c = true) ∧
      tss.length = 4 ∧ (∀ c ∈ tss, isDigitCh c = true)) :=
  ⟨⟨rfl, by decide, by decide, by decide, by decide⟩,
   webhook_completed_code_shape
     ⟨"checkout.session.completed", "cs_1", some "a@b.c", some "Basic Package"⟩ rfl
     2025 (2 ^ 52) 1234567890123 (by decide) (by decide) (by decide) (by decide)⟩

/-- C10 as stated is violated by the code: with a one-digit year, the
random draw 0 (whose base-36 rendering "0" leaves an empty substring) and
a small timestamp, the generated code WN-5--3 starts with WN- but has
length 7, so the validator rejects it. -/
theorem mint_validate_fails_short_inputs :
    generateAccessCode 5 0 3 = "WN-5--3" ∧
    jsStartsWith (generateAccessCode 5 0 3) "WN-" = true ∧
    jsLength (generateAccessCode 5 0 3) = 7 ∧
    reportsValid (validateCode (some (generateAccessCode 5 0 3))) = false := by decide

/-- C10, amended: for a year of at least four digits (every real calendar
year) and any timestamp and random draw, the generated code starts with
WN- and has length at least 10, so the validator accepts every freshly
minted code. -/
theorem mint_then_validate (year rand ts : Nat) (hy : 1000 ≤ year) :
    jsStartsWith (generateAccessCode year rand ts) "WN-" = true ∧
    10 ≤ jsLength (generateAccessCode year rand ts) ∧
    validateCode (some (generateAccessCode year rand ts))
      = .valid (generateAccessCode year rand ts) := by
  have hdata := generateAccessCode_data year rand ts
  have hyLen : 4 ≤ (natToDecString year).data.length := by
    have := decRevDigits_length_ge 3 (year + 1) year
      (by rw [show (10 : Nat) ^ 3 = 1000 from by norm_num]; exact hy) (by omega)
    rw [natToDecString_length]
    omega
  have htLen : 1 ≤ (jsSliceLast (natToDecString ts) 4).data.length := by
    have h1 : 1 ≤ (natToDecString ts).data.length := by
      rw [natToDecString_length]; exact decRevDigits_length_pos ts
    simp only [jsSliceLast, List.length_drop]
    omega
  have hpre : jsStartsWith (generateAccessCode year rand ts) "WN-" = true := by
    unfold jsStartsWith
    rw [show ("WN-" : String).data = ['W', 'N', '-'] from rfl, hdata]
    simp only [List.append_assoc]
    exact isPrefixOf_append_self _ _
  have hlen : 10 ≤ jsLength (generateAccessCode year rand ts) := by
    unfold jsLength
    rw [hdata]
    simp only [List.length_append, List.length_cons, List.length_nil]
    omega
  refine ⟨hpre, hlen, ?_⟩
  have hne : generateAccessCode year rand ts ≠ "" := by
    intro h
    have h0 : jsLength (generateAccessCode year rand ts) = 0 := by rw [h]; rfl
    omega
  show (if generateAccessCode year rand ts = "" then ValidateResult.missingError
    else if jsStartsWith (generateAccessCode year rand ts) "WN-" = true
        ∧ 10 ≤ jsLength (generateAccessCode year rand ts)
      then ValidateResult.valid (generateAccessCode year rand ts)
      else ValidateResult.formatError)
    = ValidateResult.valid (generateAccessCode year rand ts)
  rw [if_neg hne, if_pos ⟨hpre, hlen⟩]

/-- Witness for the amended C10 at year 2025, random draw 0 and
timestamp 3. -/
theorem mint_then_validate_witness :
    1000 ≤ 2025 ∧
    (jsStartsWith (generateAccessCode 2025 0 3) "WN-" = true ∧
     10 ≤ jsLength (generateAccessCode 2025 0 3) ∧
     validateCode (some (generateAccessCode 2025 0 3))
       = .valid (generateAccessCode 2025 0 3)) :=
  ⟨by decide, mint_then_validate 2025 0 3 (by decide)⟩
